import Mathlib

/-!
Shallow embedding of the relationship-consistency core of
`src/lib/platforms/channel.js` (the "Resonator" Channel platform).

A `Channel` record holds an `id`, a unique `name` and a denormalized list
`identityRef` of Identity ids; an `Identity` record (owned by the external
Identity collaborator) holds an `id` and a denormalized list `channels` of
Channel *names*.  The store is modeled as an explicit state `St` holding the
two collections; each public operation of `channel.js` becomes a function
`St → … → OpOut α` returning the post-state, the result
(`Except Err α`, mirroring the callback's `(err, value)` convention) and the
list of collaborator / bulk-store calls the operation issued.

Store and collaborator failures are injected through explicit boolean
parameters, one per fallible call site, mirroring the `if (err)` branches of
the source.  `Err.rawStore` stands for an underlying store/collaborator error
object passed to the callback unchanged (`return callback(err)`), as opposed
to the wrapped `errors.InternalError` / `errors.BadRequestError` /
`errors.NotFoundError` / `errors.ConflictError` cases.
-/

structure Channel where
  id : Nat
  name : String
  identityRef : List Nat
  deriving Repr, DecidableEq

structure Identity where
  id : Nat
  channels : List String
  deriving Repr, DecidableEq

structure St where
  channels : List Channel
  identities : List Identity
  deriving Repr, DecidableEq

inductive Err where
  | badRequest
  | notFound
  | conflict
  | internal
  | rawStore
  deriving Repr, DecidableEq

/-- Calls issued to the Identity collaborator and bulk channel-store updates
(the calls whose presence or absence the specification talks about). -/
inductive Call where
  | identityGet (id : Nat)
  | identityUpdate (oldName newName : String)
  | identityPull (ids : List Nat) (name : String)
  | identityFind (ids : List Nat)
  | channelUpdate (filter : Option (List Nat)) (field : String) (value : Nat)
  deriving Repr, DecidableEq

instance {ε α : Type} [DecidableEq ε] [DecidableEq α] :
    DecidableEq (Except ε α) := fun x y =>
  match x, y with
  | .ok a, .ok b =>
    if h : a = b then .isTrue (congrArg Except.ok h)
    else .isFalse (fun hh => h (Except.ok.inj hh))
  | .error a, .error b =>
    if h : a = b then .isTrue (congrArg Except.error h)
    else .isFalse (fun hh => h (Except.error.inj hh))
  | .ok _, .error _ => .isFalse (fun hh => by cases hh)
  | .error _, .ok _ => .isFalse (fun hh => by cases hh)

structure OpOut (α : Type) where
  state : St
  result : Except Err α
  calls : List Call
  deriving Repr, DecidableEq

/-- A patch / input document for create and update: a field that is absent in
the JavaScript object is `none`. -/
structure ChannelPatch where
  name : Option String
  identityRef : Option (List Nat)
  deriving Repr, DecidableEq

/-- `Channel.findById(id)`. -/
def findChannelById (st : St) (id : Nat) : Option Channel :=
  st.channels.find? (fun c => c.id == id)

/-- Modelled from the spec: the Identity collaborator's `get(id)`
(`identities.get`), `Identity | not-found`; the collaborator's own code is
not under `src/`. -/
def findIdentityById (st : St) (id : Nat) : Option Identity :=
  st.identities.find? (fun i => i.id == id)

/-- `preProcessChannel(channelToProcess, changes)`:
`_.extend({}, channelToProcess, changes)` — fields present in `changes`
override the base, missing fields keep the base's values.  The base is the
empty-Channel template `{name: '', identityRef: []}` when
`channelToProcess` is `null`.  The template/base `id` is untouched by the
merge. -/
def preProcessChannel (base : Channel) (changes : ChannelPatch) : Channel :=
  { id := base.id,
    name := changes.name.getD base.name,
    identityRef := changes.identityRef.getD base.identityRef }

/-- The store-assigned id of a newly saved Channel (modeled as one more than
the largest id in the store, so it is always fresh). -/
def freshId (st : St) : Nat :=
  st.channels.foldr (fun c m => max c.id m) 0 + 1

/-- The duplicate-name pre-check of `createChannel`:
`Channel.findOne({name: channelData.name})` found a non-empty result.  When
`channelData.name` is absent the driver strips the `undefined` condition and
`findOne({})` matches any existing document. -/
def nameConflict (st : St) (data : ChannelPatch) : Bool :=
  st.channels.any (fun c =>
    match data.name with
    | some n => c.name == n
    | none => true)

/-- `createChannel(channelData, callback)`.  `findFails` injects an error in
the `findOne` pre-check, `saveFails` in `channel.save`; both are passed to
the callback unchanged (`return callback(err)`). -/
def createChannel (st : St) (data : ChannelPatch) (findFails saveFails : Bool) :
    OpOut Channel :=
  if findFails then ⟨st, .error .rawStore, []⟩
  else if nameConflict st data then ⟨st, .error .conflict, []⟩
  else if saveFails then ⟨st, .error .rawStore, []⟩
  else
    let saved := preProcessChannel
      { id := freshId st, name := "", identityRef := [] } data
    ⟨{ st with channels := st.channels ++ [saved] }, .ok saved, []⟩

/-- The effect of the Identity collaborator's `$pull` on one Identity
record: when its id is in `ids`, every element equal to `name` is removed
from its `channels` array. -/
def pruneIdentityElem (ids : List Nat) (name : String) (i : Identity) : Identity :=
  if ids.contains i.id then
    { i with channels := i.channels.filter (fun s => !(s == name)) }
  else i

/-- Modelled from the spec: the Identity collaborator's
`removeValuesFromField(ids, 'channels', name)` — a `$pull` that removes every
element equal to `name` from the `channels` array of each Identity whose id
is in `ids`; the collaborator's own code is not under `src/`. -/
def identitiesRemoveFromChannels (ids : List Nat) (name : String)
    (l : List Identity) : List Identity :=
  l.map (pruneIdentityElem ids name)

/-- `deleteChannel(channelId, callback)`.  `removeFails` injects an error in
`Channel.findOneAndRemove` (passed through raw); `cleanupFails` injects an
error in the Identity collaborator's cleanup (wrapped as `InternalError`).
`findOneAndRemove` removes the first document matching the id. -/
def deleteChannel (st : St) (id : Nat) (removeFails cleanupFails : Bool) :
    OpOut Unit :=
  if removeFails then ⟨st, .error .rawStore, []⟩
  else
    match findChannelById st id with
    | none => ⟨st, .error .notFound, []⟩
    | some c =>
      let st1 : St := { st with channels := st.channels.eraseP (fun d => d.id == id) }
      if c.identityRef.isEmpty then ⟨st1, .ok (), []⟩
      else if cleanupFails then
        ⟨st1, .error .internal, [.identityPull c.identityRef c.name]⟩
      else
        let newIdents := identitiesRemoveFromChannels c.identityRef c.name st1.identities
        ⟨{ st1 with identities := newIdents },
         .ok (), [.identityPull c.identityRef c.name]⟩

/-- Replace the first element equal to `old` by `new` (MongoDB's positional
`channels.$` update on the first array element matched by the query). -/
def replaceFirst (old new : String) : List String → List String
  | [] => []
  | x :: xs => if x = old then new :: xs else x :: replaceFirst old new xs

/-- Modelled from the spec: the Identity collaborator's
`update({channels: oldName}, {$set: {'channels.$': newName}}, {multi: true})`
— in every Identity whose `channels` array contains `oldName`, the first
element equal to `oldName` is replaced by `newName`; the collaborator's own
code is not under `src/`. -/
def renameIdentityElem (oldName newName : String) (i : Identity) : Identity :=
  if i.channels.contains oldName then
    { i with channels := replaceFirst oldName newName i.channels }
  else i

/-- The `{multi: true}` positional update applied across the Identity
collection: `renameIdentityElem` on every record. -/
def identitiesRename (oldName newName : String) (l : List Identity) :
    List Identity :=
  l.map (renameIdentityElem oldName newName)

/-- `updateChannel(channelId, changes, callback)`: fetch, merge, save, then
unconditionally issue the Identity back-reference update from the old name to
the merged name.  `getFails`, `saveFails` and `identUpdateFails` inject
errors in the three fallible calls; all three are passed to the final
callback unchanged. -/
def updateChannel (st : St) (id : Nat) (changes : ChannelPatch)
    (getFails saveFails identUpdateFails : Bool) : OpOut Unit :=
  if getFails then ⟨st, .error .rawStore, []⟩
  else
    match findChannelById st id with
    | none => ⟨st, .error .notFound, []⟩
    | some c =>
      let merged := preProcessChannel c changes
      if saveFails then ⟨st, .error .rawStore, []⟩
      else
        let newChannels := st.channels.map (fun d => if d.id == id then merged else d)
        let st1 : St := { st with channels := newChannels }
        if identUpdateFails then
          ⟨st1, .error .rawStore, [.identityUpdate c.name merged.name]⟩
        else
          let newIdents := identitiesRename c.name merged.name st1.identities
          ⟨{ st1 with identities := newIdents },
           .ok (), [.identityUpdate c.name merged.name]⟩

/-- Modelled from the spec: the Identity collaborator's
`formatIdentity(identity)`; its formatting is opaque to this layer, so it is
modeled as the identity map on the record. -/
def formatIdentity (i : Identity) : Identity := i

/-- `retrieveIdentityListForChannel(channelId, callback)`.  A missing
(falsy) `channelId` is `none`.  `getFails` injects an error in `getChannel`
(passed through raw), `findFails` in the collaborator's
`findIdentitiesByFieldValue` (passed through raw). -/
def retrieveIdentityListForChannel (st : St) (channelId : Option Nat)
    (getFails findFails : Bool) : OpOut (List Identity) :=
  match channelId with
  | none => ⟨st, .error .badRequest, []⟩
  | some cid =>
    if getFails then ⟨st, .error .rawStore, []⟩
    else
      match findChannelById st cid with
      | none => ⟨st, .error .badRequest, []⟩
      | some c =>
        if c.identityRef.isEmpty then ⟨st, .ok [], []⟩
        else if findFails then ⟨st, .error .rawStore, [.identityFind c.identityRef]⟩
        else
          let found := st.identities.filter (fun i => c.identityRef.contains i.id)
          ⟨st, .ok (found.map formatIdentity), [.identityFind c.identityRef]⟩

/-- The effect of `Channel.update(queryOptions, {$pull: {field: v}}, {multi:
true})`: in every Channel matched by the filter (`none` = empty filter =
every document), remove all elements equal to `v` from the named array field
(`identityRef` is the Channel schema's only array field a `$pull` can act
on). -/
def pullChannelElem (filter : Option (List Nat)) (field : String) (v : Nat)
    (c : Channel) : Channel :=
  if (match filter with | none => true | some ids => ids.contains c.id) then
    if field == "identityRef" then
      { c with identityRef := c.identityRef.filter (fun x => !(x == v)) }
    else c
  else c

/-- The `{multi: true}` bulk `$pull` applied across the Channel collection:
`pullChannelElem` on every record. -/
def channelPullEffect (filter : Option (List Nat)) (field : String) (v : Nat)
    (cs : List Channel) : List Channel :=
  cs.map (pullChannelElem filter field v)

/-- `removeValuesFromField(channelList, field, valuesToRemove, callback)`.
A falsy/absent `channelList` is `none` (no `_id` filter is added); a single
id is normalized by the source to a one-element array, so the `some` case
carries the normalized list.  A store error is wrapped as `InternalError`. -/
def removeValuesFromField (st : St) (channelList : Option (List Nat))
    (field : String) (v : Nat) (updateFails : Bool) : OpOut Unit :=
  if updateFails then ⟨st, .error .internal, [.channelUpdate channelList field v]⟩
  else
    let newChannels := channelPullEffect channelList field v st.channels
    ⟨{ st with channels := newChannels },
     .ok (), [.channelUpdate channelList field v]⟩

/-- `deleteIdentityFromChannel(channelId, identityId, callback)`: the
four-stage waterfall.  Stage read failures are injected by `chanReadFails`
(wrapped as `BadRequestError`) and `identReadFails` (wrapped as
`InternalError`).  Stage 4 issues both pulls together (`async.parallel`);
`chanPullFails` makes the channel-side pull fail (wrapped as `InternalError`
by `removeValuesFromField`), `identPullFails` makes the collaborator pull
fail (its error is passed through).  Each pull's state effect applies
independently of the other's outcome — there is no rollback. -/
def deleteIdentityFromChannel (st : St) (channelId identityId : Nat)
    (chanReadFails identReadFails chanPullFails identPullFails : Bool) :
    OpOut Unit :=
  if chanReadFails then ⟨st, .error .badRequest, []⟩
  else
    match findChannelById st channelId with
    | none => ⟨st, .error .badRequest, []⟩
    | some channel =>
      if identReadFails then ⟨st, .error .internal, [.identityGet identityId]⟩
      else
        match findIdentityById st identityId with
        | none => ⟨st, .error .badRequest, [.identityGet identityId]⟩
        | some identity =>
          if !(identity.channels.contains channel.name)
              || !(channel.identityRef.contains identity.id) then
            ⟨st, .error .conflict, [.identityGet identityId]⟩
          else
            let calls := [Call.identityGet identityId,
                          Call.channelUpdate (some [channelId]) "identityRef" identityId,
                          Call.identityPull [identityId] channel.name]
            let pulledChannels :=
              channelPullEffect (some [channelId]) "identityRef" identityId st.channels
            let st1 : St :=
              if chanPullFails then st else { st with channels := pulledChannels }
            let prunedIdents :=
              identitiesRemoveFromChannels [identityId] channel.name st1.identities
            let st2 : St :=
              if identPullFails then st1 else { st1 with identities := prunedIdents }
            if chanPullFails then ⟨st2, .error .internal, calls⟩
            else if identPullFails then ⟨st2, .error .rawStore, calls⟩
            else ⟨st2, .ok (), calls⟩

/-- The four relationship-mutating public operations, for reasoning about
sequences of operations. -/
inductive Op where
  | create (data : ChannelPatch)
  | update (id : Nat) (changes : ChannelPatch)
  | delete (id : Nat)
  | detach (channelId identityId : Nat)
  deriving Repr, DecidableEq

/-- Run one operation with no injected store/collaborator failures. -/
def applyOp (st : St) : Op → OpOut Unit
  | .create d =>
    let o := createChannel st d false false
    ⟨o.state, o.result.map (fun _ => ()), o.calls⟩
  | .update id ch => updateChannel st id ch false false false
  | .delete id => deleteChannel st id false false
  | .detach cid iid => deleteIdentityFromChannel st cid iid false false false false

def resOk {α : Type} : Except Err α → Bool
  | .ok _ => true
  | .error _ => false

def runOps (st : St) : List Op → St
  | [] => st
  | op :: ops => runOps (applyOp st op).state ops

def allOk (st : St) : List Op → Bool
  | [] => true
  | op :: ops => resOk (applyOp st op).result && allOk (applyOp st op).state ops

/-- Ids of the Channel records an operation writes (creates or updates),
computed against the operation's pre-state. -/
def wrChannels (st : St) : Op → List Nat
  | .create _ => [freshId st]
  | .update id _ =>
    match findChannelById st id with
    | some _ => [id]
    | none => []
  | .delete _ => []
  | .detach cid _ => [cid]

/-- Ids of the Identity records an operation writes, computed against the
operation's pre-state. -/
def wrIdentities (st : St) : Op → List Nat
  | .create _ => []
  | .update id _ =>
    match findChannelById st id with
    | some c =>
      (st.identities.filter (fun i => i.channels.contains c.name)).map
        (fun i => i.id)
    | none => []
  | .delete id =>
    match findChannelById st id with
    | some c => c.identityRef
    | none => []
  | .detach _ iid => [iid]

/-- A Channel/Identity pair is touched by an operation when the operation
writes at least one of its two members. -/
def touchedPair (st : St) (op : Op) (c : Channel) (i : Identity) : Prop :=
  c.id ∈ wrChannels st op ∨ i.id ∈ wrIdentities st op

/-- The bidirectional consistency invariant for one pair. -/
def pairInv (c : Channel) (i : Identity) : Prop :=
  i.id ∈ c.identityRef ↔ c.name ∈ i.channels

/-- The bidirectional consistency invariant for every pair of the state. -/
def stInv (st : St) : Prop :=
  ∀ c ∈ st.channels, ∀ i ∈ st.identities, pairInv c i

/-- Record ids are unique in each collection (a store `_id` property). -/
def idsNodup (st : St) : Prop :=
  (st.channels.map (fun c => c.id)).Nodup ∧
  (st.identities.map (fun i => i.id)).Nodup

instance (c : Channel) (i : Identity) : Decidable (pairInv c i) := by
  unfold pairInv; infer_instance

instance (st : St) (op : Op) (c : Channel) (i : Identity) :
    Decidable (touchedPair st op c i) := by
  unfold touchedPair; infer_instance

instance (st : St) : Decidable (stInv st) := by
  unfold stInv pairInv; infer_instance

instance (st : St) : Decidable (idsNodup st) := by
  unfold idsNodup; infer_instance

/-! ### Helper lemmas -/

theorem contains_iff {α : Type} [BEq α] [LawfulBEq α] (l : List α) (a : α) :
    l.contains a = true ↔ a ∈ l :=
  List.elem_iff

theorem mem_filter_ne_self {α : Type} [BEq α] [LawfulBEq α] (a : α) (l : List α) :
    a ∉ l.filter (fun s => !(s == a)) := by
  simp [List.mem_filter]

theorem replaceFirst_self (a : String) (l : List String) :
    replaceFirst a a l = l := by
  induction l with
  | nil => rfl
  | cons x xs ih =>
    by_cases h : x = a <;> simp [replaceFirst, h, ih]

theorem identitiesRename_self (a : String) (l : List Identity) :
    identitiesRename a a l = l := by
  unfold identitiesRename
  induction l with
  | nil => rfl
  | cons i l ih =>
    simp only [List.map_cons, List.map] at ih ⊢
    rw [ih]
    by_cases h : i.channels.contains a = true <;>
      simp [renameIdentityElem, h, replaceFirst_self]

theorem mem_replaceFirst_new (a b : String) (l : List String) (h : a ∈ l) :
    b ∈ replaceFirst a b l := by
  induction l with
  | nil => cases h
  | cons x xs ih =>
    by_cases hx : x = a
    · simp [replaceFirst, hx]
    · have h' : a ∈ xs := by
        rcases List.mem_cons.mp h with h | h
        · exact absurd h.symm hx
        · exact h
      simp [replaceFirst, hx, ih h']

theorem replaceFirst_spec (a z : String) (l : List String) (h : a ∈ l) :
    ∃ k, l[k]? = some a ∧ (∀ j, j < k → l[j]? ≠ some a) ∧
      replaceFirst a z l = l.set k z := by
  induction l with
  | nil => cases h
  | cons x xs ih =>
    by_cases hx : x = a
    · refine ⟨0, by simp [hx], by omega, ?_⟩
      simp [replaceFirst, hx]
    · have h' : a ∈ xs := by
        rcases List.mem_cons.mp h with h | h
        · exact absurd h.symm hx
        · exact h
      obtain ⟨k, h1, h2, h3⟩ := ih h'
      refine ⟨k + 1, by simpa using h1, ?_, ?_⟩
      · intro j hj
        match j with
        | 0 => simpa using hx
        | j + 1 =>
          have : j < k := by omega
          simpa using h2 j this
      · simp [replaceFirst, hx, h3]

theorem find?_id_eq (st : St) (id : Nat) (c : Channel)
    (h : findChannelById st id = some c) : c.id = id := by
  have := List.find?_some h
  simpa using this

theorem find?_id_mem (st : St) (id : Nat) (c : Channel)
    (h : findChannelById st id = some c) : c ∈ st.channels :=
  List.mem_of_find?_eq_some h

theorem findIdentity_id_eq (st : St) (id : Nat) (i : Identity)
    (h : findIdentityById st id = some i) : i.id = id := by
  have := List.find?_some h
  simpa using this

theorem findIdentity_id_mem (st : St) (id : Nat) (i : Identity)
    (h : findIdentityById st id = some i) : i ∈ st.identities :=
  List.mem_of_find?_eq_some h

/-! ### Claim C10: removeValuesFromField with an absent ids argument -/

/-- Claim C10: when the ids argument of `removeValuesFromField` is absent or
falsy, the bulk pull update is issued with an empty filter, so the value is
removed from the `identityRef` array of every Channel record in the store,
not only from records the caller named. -/
theorem removeValuesFromField_absent_ids_hits_all (st : St) (v : Nat) :
    (removeValuesFromField st none "identityRef" v false).calls =
      [.channelUpdate none "identityRef" v] ∧
    (removeValuesFromField st none "identityRef" v false).result = .ok () ∧
    (removeValuesFromField st none "identityRef" v false).state.channels =
      st.channels.map
        (fun c => { c with identityRef := c.identityRef.filter (fun x => !(x == v)) }) := by
  refine ⟨rfl, rfl, ?_⟩
  simp [removeValuesFromField, channelPullEffect, pullChannelElem]

/-! ### Claim C8: retrieveIdentityListForChannel error handling and fast path -/

/-- Claim C8: `retrieveIdentityListForChannel` fails with `BadRequestError`
when the channel id is missing or no Channel with that id exists, and for an
existing Channel with an empty `identityRef` it returns an empty sequence
without invoking the Identity collaborator (no collaborator call is
issued). -/
theorem retrieveIdentityListForChannel_spec (st : St) (cid : Nat) :
    (∀ f1 f2, retrieveIdentityListForChannel st none f1 f2 =
      ⟨st, .error .badRequest, []⟩) ∧
    (findChannelById st cid = none → ∀ f2,
      retrieveIdentityListForChannel st (some cid) false f2 =
        ⟨st, .error .badRequest, []⟩) ∧
    (∀ c, findChannelById st cid = some c → c.identityRef = [] → ∀ f2,
      retrieveIdentityListForChannel st (some cid) false f2 = ⟨st, .ok [], []⟩) := by
  refine ⟨fun f1 f2 => rfl, fun h f2 => ?_, fun c h he f2 => ?_⟩
  · simp [retrieveIdentityListForChannel, h]
  · simp [retrieveIdentityListForChannel, h, he]

/-- Claim C8 witness: a concrete missing id, a concrete absent Channel, and a
concrete Channel with empty `identityRef`. -/
theorem retrieveIdentityListForChannel_spec_witness :
    retrieveIdentityListForChannel ⟨[⟨1, "a", []⟩], [⟨10, ["b"]⟩]⟩ none false false =
      ⟨⟨[⟨1, "a", []⟩], [⟨10, ["b"]⟩]⟩, .error .badRequest, []⟩ ∧
    retrieveIdentityListForChannel ⟨[⟨1, "a", []⟩], [⟨10, ["b"]⟩]⟩ (some 2) false false =
      ⟨⟨[⟨1, "a", []⟩], [⟨10, ["b"]⟩]⟩, .error .badRequest, []⟩ ∧
    retrieveIdentityListForChannel ⟨[⟨1, "a", []⟩], [⟨10, ["b"]⟩]⟩ (some 1) false false =
      ⟨⟨[⟨1, "a", []⟩], [⟨10, ["b"]⟩]⟩, .ok [], []⟩ := by
  have h := retrieveIdentityListForChannel_spec ⟨[⟨1, "a", []⟩], [⟨10, ["b"]⟩]⟩ 1
  have h2 := retrieveIdentityListForChannel_spec ⟨[⟨1, "a", []⟩], [⟨10, ["b"]⟩]⟩ 2
  exact ⟨h.1 false false, h2.2.1 (by decide) false, h.2.2 ⟨1, "a", []⟩ (by decide) rfl false⟩

/-! ### Claim C7: deleteChannel error handling and cascade -/

/-- Claim C7: `deleteChannel` fails with `NotFoundError` if no Channel with
the id exists; on success with a non-empty `identityRef` it asks the Identity
collaborator to pull the deleted Channel's name out of the `channels` list of
every referenced Identity (surfacing a cleanup failure as `InternalError`,
with the Channel already removed), and with an empty `identityRef` it reports
success without calling the Identity collaborator. -/
theorem deleteChannel_spec (st : St) (id : Nat) :
    (findChannelById st id = none → ∀ f2,
      deleteChannel st id false f2 = ⟨st, .error .notFound, []⟩) ∧
    (∀ c, findChannelById st id = some c → c.identityRef = [] → ∀ f2,
      deleteChannel st id false f2 =
        ⟨⟨st.channels.eraseP (fun d => d.id == id), st.identities⟩, .ok (), []⟩) ∧
    (∀ c, findChannelById st id = some c → c.identityRef ≠ [] →
      deleteChannel st id false true =
        ⟨⟨st.channels.eraseP (fun d => d.id == id), st.identities⟩, .error .internal,
         [.identityPull c.identityRef c.name]⟩ ∧
      deleteChannel st id false false =
        ⟨⟨st.channels.eraseP (fun d => d.id == id),
          identitiesRemoveFromChannels c.identityRef c.name st.identities⟩, .ok (),
         [.identityPull c.identityRef c.name]⟩) := by
  refine ⟨fun h f2 => ?_, fun c h he f2 => ?_, fun c h hne => ⟨?_, ?_⟩⟩
  · simp [deleteChannel, h]
  · simp [deleteChannel, h, he]
  · have : c.identityRef.isEmpty = false := by
      rcases hh : c.identityRef with _ | _
      · exact absurd hh hne
      · rfl
    simp [deleteChannel, h, this]
  · have : c.identityRef.isEmpty = false := by
      rcases hh : c.identityRef with _ | _
      · exact absurd hh hne
      · rfl
    simp [deleteChannel, h, this]

/-- Claim C7 witness: a missing Channel yields `NotFoundError`; deleting a
Channel with `identityRef = [20, 30]` pulls its name from both referenced
Identities without touching others, and an empty `identityRef` skips the
collaborator call. -/
theorem deleteChannel_spec_witness :
    deleteChannel ⟨[⟨1, "a", [20, 30]⟩, ⟨2, "b", []⟩], [⟨20, ["a"]⟩, ⟨30, ["a", "b"]⟩]⟩
        9 false false =
      ⟨⟨[⟨1, "a", [20, 30]⟩, ⟨2, "b", []⟩], [⟨20, ["a"]⟩, ⟨30, ["a", "b"]⟩]⟩,
       .error .notFound, []⟩ ∧
    deleteChannel ⟨[⟨1, "a", [20, 30]⟩, ⟨2, "b", []⟩], [⟨20, ["a"]⟩, ⟨30, ["a", "b"]⟩]⟩
        2 false false =
      ⟨⟨[⟨1, "a", [20, 30]⟩], [⟨20, ["a"]⟩, ⟨30, ["a", "b"]⟩]⟩, .ok (), []⟩ ∧
    deleteChannel ⟨[⟨1, "a", [20, 30]⟩, ⟨2, "b", []⟩], [⟨20, ["a"]⟩, ⟨30, ["a", "b"]⟩]⟩
        1 false false =
      ⟨⟨[⟨2, "b", []⟩], [⟨20, []⟩, ⟨30, ["b"]⟩]⟩, .ok (),
       [.identityPull [20, 30] "a"]⟩ ∧
    deleteChannel ⟨[⟨1, "a", [20, 30]⟩, ⟨2, "b", []⟩], [⟨20, ["a"]⟩, ⟨30, ["a", "b"]⟩]⟩
        1 false true =
      ⟨⟨[⟨2, "b", []⟩], [⟨20, ["a"]⟩, ⟨30, ["a", "b"]⟩]⟩, .error .internal,
       [.identityPull [20, 30] "a"]⟩ := by
  have h := deleteChannel_spec
    ⟨[⟨1, "a", [20, 30]⟩, ⟨2, "b", []⟩], [⟨20, ["a"]⟩, ⟨30, ["a", "b"]⟩]⟩ 9
  have h2 := deleteChannel_spec
    ⟨[⟨1, "a", [20, 30]⟩, ⟨2, "b", []⟩], [⟨20, ["a"]⟩, ⟨30, ["a", "b"]⟩]⟩ 2
  have h1 := deleteChannel_spec
    ⟨[⟨1, "a", [20, 30]⟩, ⟨2, "b", []⟩], [⟨20, ["a"]⟩, ⟨30, ["a", "b"]⟩]⟩ 1
  refine ⟨h.1 (by decide) false, ?_, ?_, ?_⟩
  · have := h2.2.1 ⟨2, "b", []⟩ (by decide) rfl false
    rw [this]; decide
  · have := (h1.2.2 ⟨1, "a", [20, 30]⟩ (by decide) (by decide)).2
    rw [this]; decide
  · have := (h1.2.2 ⟨1, "a", [20, 30]⟩ (by decide) (by decide)).1
    rw [this]; decide

/-! ### Claim C6: createChannel uniqueness pre-check and template merge -/

/-- Claim C6: `createChannel` fails with `ConflictError` whenever a Channel
with the same name already exists, regardless of other field differences, and
on success persists the merge of the input onto the empty-Channel template
`{name: "", identityRef: []}`, so omitted fields take the template
defaults. -/
theorem createChannel_spec (st : St) (data : ChannelPatch) :
    (∀ n, data.name = some n → (∃ c ∈ st.channels, c.name = n) →
      createChannel st data false false = ⟨st, .error .conflict, []⟩) ∧
    (nameConflict st data = false →
      createChannel st data false false =
        ⟨⟨st.channels ++ [⟨freshId st, data.name.getD "", data.identityRef.getD []⟩],
          st.identities⟩,
         .ok ⟨freshId st, data.name.getD "", data.identityRef.getD []⟩, []⟩) := by
  constructor
  · intro n hn hex
    have hconf : nameConflict st data = true := by
      obtain ⟨c, hc, hname⟩ := hex
      unfold nameConflict
      rw [List.any_eq_true]
      exact ⟨c, hc, by simp [hn, hname]⟩
    simp [createChannel, hconf]
  · intro h
    simp [createChannel, h, preProcessChannel]

/-- Claim C6 witness: creating over an existing name `"a"` conflicts even
though every other field differs, and creating `"b"` with `identityRef`
omitted persists the template default `[]`. -/
theorem createChannel_spec_witness :
    createChannel ⟨[⟨1, "a", [5]⟩], []⟩ ⟨some "a", some [7, 8]⟩ false false =
      ⟨⟨[⟨1, "a", [5]⟩], []⟩, .error .conflict, []⟩ ∧
    createChannel ⟨[⟨1, "a", [5]⟩], []⟩ ⟨some "b", none⟩ false false =
      ⟨⟨[⟨1, "a", [5]⟩, ⟨2, "b", []⟩], []⟩, .ok ⟨2, "b", []⟩, []⟩ := by
  have h := createChannel_spec ⟨[⟨1, "a", [5]⟩], []⟩ ⟨some "a", some [7, 8]⟩
  have h2 := createChannel_spec ⟨[⟨1, "a", [5]⟩], []⟩ ⟨some "b", none⟩
  refine ⟨h.1 "a" rfl ⟨⟨1, "a", [5]⟩, by decide, rfl⟩, ?_⟩
  have := h2.2 (by decide)
  rw [this]; decide

/-! ### Claim C2: when updateChannel issues the Identity back-reference update -/

/-- Claim C2 counterexample: with Channel 1 named `"a"` and an empty patch,
the merged name equals the old name, the update succeeds, and an Identity
update is still issued — refuting "when the name is unchanged, no Identity
update is issued". -/
theorem updateChannel_issues_update_with_unchanged_name :
    (preProcessChannel ⟨1, "a", []⟩ ⟨none, none⟩).name = "a" ∧
    (updateChannel ⟨[⟨1, "a", []⟩], [⟨10, ["a"]⟩]⟩ 1 ⟨none, none⟩
        false false false).result = .ok () ∧
    (updateChannel ⟨[⟨1, "a", []⟩], [⟨10, ["a"]⟩]⟩ 1 ⟨none, none⟩
        false false false).calls = [.identityUpdate "a" "a"] := by
  decide

/-- Claim C2 amended: for every existing Channel and every patch, a
successful `updateChannel` always issues exactly one Identity back-reference
update, from the old name to the merged name, whether or not the merge
changed the name; when the name is unchanged the issued update replaces the
old name with itself, so the Identity collection is left unchanged even
though the update is issued. -/
theorem updateChannel_always_issues_identity_update (st : St) (id : Nat)
    (ch : ChannelPatch) (c : Channel) (hc : findChannelById st id = some c) :
    (updateChannel st id ch false false false).calls =
      [.identityUpdate c.name (preProcessChannel c ch).name] ∧
    ((preProcessChannel c ch).name = c.name →
      (updateChannel st id ch false false false).state.identities = st.identities) := by
  constructor
  · simp [updateChannel, hc]
  · intro hname
    simp [updateChannel, hc, hname, identitiesRename_self]

/-- Claim C2 amended witness: an `identityRef`-only patch leaves the name
unchanged, yet the Identity update `"a" → "a"` is issued; the Identity
collection is untouched. -/
theorem updateChannel_always_issues_identity_update_witness :
    (updateChannel ⟨[⟨1, "a", []⟩], [⟨10, ["a", "b"]⟩]⟩ 1 ⟨none, some [10]⟩
        false false false).calls = [.identityUpdate "a" "a"] ∧
    (updateChannel ⟨[⟨1, "a", []⟩], [⟨10, ["a", "b"]⟩]⟩ 1 ⟨none, some [10]⟩
        false false false).state.identities = [⟨10, ["a", "b"]⟩] := by
  have h := updateChannel_always_issues_identity_update
    ⟨[⟨1, "a", []⟩], [⟨10, ["a", "b"]⟩]⟩ 1 ⟨none, some [10]⟩ ⟨1, "a", []⟩ (by decide)
  exact ⟨h.1, h.2 rfl⟩

/-! ### Claim C9: which operations wrap store errors -/

/-- Claim C9 counterexample: when `createChannel`'s duplicate-name pre-check
read fails, the raw store error is returned to the caller unchanged — it is
not wrapped as an `InternalError`. -/
theorem createChannel_surfaces_raw_store_error :
    (createChannel ⟨[], []⟩ ⟨some "a", none⟩ true false).result = .error .rawStore ∧
    (createChannel ⟨[], []⟩ ⟨some "a", none⟩ true false).result ≠
      .error .internal := by
  decide

/-- Claim C9 amended: only parts of the pipeline wrap unexpected store or
collaborator failures: `deleteIdentityFromChannel`'s read stages wrap them as
`BadRequestError` / `InternalError`, `removeValuesFromField` and
`deleteChannel`'s identity-cleanup step wrap them as `InternalError`; but
`createChannel`, `updateChannel` (its fetch, save and identity-update calls),
`deleteChannel`'s primary remove and `retrieveIdentityListForChannel` return
the underlying store or collaborator error to the caller unchanged. -/
theorem errorWrapping_by_operation (st : St) (id cid iid v : Nat)
    (data ch : ChannelPatch) (l : Option (List Nat)) (f : String) :
    (createChannel st data true false).result = .error .rawStore ∧
    (updateChannel st id ch true false false).result = .error .rawStore ∧
    (∀ c, findChannelById st id = some c →
      (updateChannel st id ch false false true).result = .error .rawStore) ∧
    (deleteChannel st id true false).result = .error .rawStore ∧
    (retrieveIdentityListForChannel st (some cid) true false).result =
      .error .rawStore ∧
    (deleteIdentityFromChannel st cid iid true false false false).result =
      .error .badRequest ∧
    (∀ c, findChannelById st cid = some c →
      (deleteIdentityFromChannel st cid iid false true false false).result =
        .error .internal) ∧
    (removeValuesFromField st l f v true).result = .error .internal ∧
    (∀ c, findChannelById st id = some c → c.identityRef ≠ [] →
      (deleteChannel st id false true).result = .error .internal) := by
  refine ⟨rfl, rfl, fun c hc => ?_, rfl, rfl, rfl, fun c hc => ?_, rfl,
    fun c hc hne => ?_⟩
  · simp [updateChannel, hc]
  · simp [deleteIdentityFromChannel, hc]
  · have : c.identityRef.isEmpty = false := by
      rcases hh : c.identityRef with _ | _
      · exact absurd hh hne
      · rfl
    simp [deleteChannel, hc, this]

/-- Claim C9 amended witness: the wrap-versus-passthrough behaviour at a
concrete state holding Channel 1 named `"a"` with `identityRef = [10]`. -/
theorem errorWrapping_by_operation_witness :
    (updateChannel ⟨[⟨1, "a", [10]⟩], [⟨10, ["a"]⟩]⟩ 1 ⟨some "z", none⟩
        false false true).result = .error .rawStore ∧
    (deleteIdentityFromChannel ⟨[⟨1, "a", [10]⟩], [⟨10, ["a"]⟩]⟩ 1 10
        false true false false).result = .error .internal ∧
    (deleteChannel ⟨[⟨1, "a", [10]⟩], [⟨10, ["a"]⟩]⟩ 1 false true).result =
      .error .internal ∧
    (createChannel ⟨[⟨1, "a", [10]⟩], [⟨10, ["a"]⟩]⟩ ⟨some "b", none⟩
        true false).result = .error .rawStore := by
  have h := errorWrapping_by_operation ⟨[⟨1, "a", [10]⟩], [⟨10, ["a"]⟩]⟩ 1 1 10 0
    ⟨some "b", none⟩ ⟨some "z", none⟩ none "identityRef"
  exact ⟨h.2.2.1 ⟨1, "a", [10]⟩ (by decide),
    h.2.2.2.2.2.2.1 ⟨1, "a", [10]⟩ (by decide),
    h.2.2.2.2.2.2.2.2 ⟨1, "a", [10]⟩ (by decide) (by decide), h.1⟩

theorem pullChannelElem_id (filter : Option (List Nat)) (field : String)
    (v : Nat) (c : Channel) : (pullChannelElem filter field v c).id = c.id := by
  unfold pullChannelElem
  split
  · split <;> rfl
  · rfl

theorem pruneIdentityElem_id (ids : List Nat) (name : String) (i : Identity) :
    (pruneIdentityElem ids name i).id = i.id := by
  unfold pruneIdentityElem
  split <;> rfl

theorem renameIdentityElem_id (oldName newName : String) (i : Identity) :
    (renameIdentityElem oldName newName i).id = i.id := by
  unfold renameIdentityElem
  split <;> rfl

theorem find?_channelPullEffect (l : List Channel) (filter : Option (List Nat))
    (field : String) (v : Nat) (cid : Nat) :
    (channelPullEffect filter field v l).find? (fun d => d.id == cid) =
      Option.map (pullChannelElem filter field v)
        (l.find? (fun d => d.id == cid)) := by
  unfold channelPullEffect
  rw [List.find?_map]
  have hp : ((fun d => d.id == cid) ∘ pullChannelElem filter field v) =
      (fun d : Channel => d.id == cid) := by
    funext d
    simp [Function.comp, pullChannelElem_id]
  rw [hp]

theorem find?_identitiesRemove (l : List Identity) (ids : List Nat)
    (name : String) (iid : Nat) :
    (identitiesRemoveFromChannels ids name l).find? (fun d => d.id == iid) =
      Option.map (pruneIdentityElem ids name)
        (l.find? (fun d => d.id == iid)) := by
  unfold identitiesRemoveFromChannels
  rw [List.find?_map]
  have hp : ((fun d => d.id == iid) ∘ pruneIdentityElem ids name) =
      (fun d : Identity => d.id == iid) := by
    funext d
    simp [Function.comp, pruneIdentityElem_id]
  rw [hp]

/-! ### Claim C3: deleteIdentityFromChannel stage-by-stage failure classes -/

/-- Claim C3: the failures of `deleteIdentityFromChannel` are classified by
stage — a Channel read error or an absent Channel yields `BadRequestError`;
an Identity read error yields `InternalError` while an absent Identity yields
`BadRequestError`; when both entities resolve, the operation fails with
`ConflictError` exactly when `identity.channels` does not contain
`channel.name` or `channel.identityRef` does not contain `identity.id`; and
each stage's failure short-circuits all later stages (the state is untouched
and no later collaborator call is issued). -/
theorem deleteIdentityFromChannel_stage_classes (st : St) (cid iid : Nat) :
    (∀ f2 f3 f4, deleteIdentityFromChannel st cid iid true f2 f3 f4 =
      ⟨st, .error .badRequest, []⟩) ∧
    (findChannelById st cid = none → ∀ f2 f3 f4,
      deleteIdentityFromChannel st cid iid false f2 f3 f4 =
        ⟨st, .error .badRequest, []⟩) ∧
    (∀ c, findChannelById st cid = some c → ∀ f3 f4,
      deleteIdentityFromChannel st cid iid false true f3 f4 =
        ⟨st, .error .internal, [.identityGet iid]⟩) ∧
    (∀ c, findChannelById st cid = some c → findIdentityById st iid = none →
      ∀ f3 f4, deleteIdentityFromChannel st cid iid false false f3 f4 =
        ⟨st, .error .badRequest, [.identityGet iid]⟩) ∧
    (∀ c i, findChannelById st cid = some c → findIdentityById st iid = some i →
      ∀ f3 f4,
        ((deleteIdentityFromChannel st cid iid false false f3 f4).result =
            .error .conflict ↔ (c.name ∉ i.channels ∨ i.id ∉ c.identityRef)) ∧
        (c.name ∉ i.channels ∨ i.id ∉ c.identityRef →
          deleteIdentityFromChannel st cid iid false false f3 f4 =
            ⟨st, .error .conflict, [.identityGet iid]⟩)) := by
  refine ⟨fun f2 f3 f4 => rfl,
    fun h f2 f3 f4 => by simp [deleteIdentityFromChannel, h],
    fun c hc f3 f4 => by simp [deleteIdentityFromChannel, hc],
    fun c hc hi f3 f4 => by simp [deleteIdentityFromChannel, hc, hi],
    fun c i hc hi f3 f4 => ?_⟩
  by_cases hA : c.name ∈ i.channels <;> by_cases hB : i.id ∈ c.identityRef
  · have hA' : i.channels.contains c.name = true := (contains_iff _ _).mpr hA
    have hB' : c.identityRef.contains i.id = true := (contains_iff _ _).mpr hB
    constructor
    · cases f3 <;> cases f4 <;>
        (simp only [deleteIdentityFromChannel, hc, hi, hA', hB']; simp [hA, hB])
    · intro hcon
      rcases hcon with h | h
      · exact absurd hA h
      · exact absurd hB h
  · have hA' : i.channels.contains c.name = true := (contains_iff _ _).mpr hA
    have hB' : c.identityRef.contains i.id = false := by
      cases hh : c.identityRef.contains i.id
      · rfl
      · exact absurd ((contains_iff _ _).mp hh) hB
    constructor
    · simp only [deleteIdentityFromChannel, hc, hi, hA', hB']
      simp [hB]
    · intro _
      simp only [deleteIdentityFromChannel, hc, hi, hA', hB']
      simp
  · have hA' : i.channels.contains c.name = false := by
      cases hh : i.channels.contains c.name
      · rfl
      · exact absurd ((contains_iff _ _).mp hh) hA
    constructor
    · simp only [deleteIdentityFromChannel, hc, hi, hA']
      simp [hA]
    · intro _
      simp only [deleteIdentityFromChannel, hc, hi, hA']
      simp
  · have hA' : i.channels.contains c.name = false := by
      cases hh : i.channels.contains c.name
      · rfl
      · exact absurd ((contains_iff _ _).mp hh) hA
    constructor
    · simp only [deleteIdentityFromChannel, hc, hi, hA']
      simp [hA]
    · intro _
      simp only [deleteIdentityFromChannel, hc, hi, hA']
      simp

/-- Claim C3 witness: the four failure stages at concrete inputs — read
error, absent Channel, Identity read error, absent Identity, and the
one-sided relationship (`identity.channels` holds the name but
`channel.identityRef` does not hold the id) yielding `ConflictError`. -/
theorem deleteIdentityFromChannel_stage_classes_witness :
    deleteIdentityFromChannel ⟨[⟨1, "a", []⟩], [⟨10, ["a"]⟩]⟩ 1 10 true false false false =
      ⟨⟨[⟨1, "a", []⟩], [⟨10, ["a"]⟩]⟩, .error .badRequest, []⟩ ∧
    deleteIdentityFromChannel ⟨[⟨1, "a", []⟩], [⟨10, ["a"]⟩]⟩ 7 10 false false false false =
      ⟨⟨[⟨1, "a", []⟩], [⟨10, ["a"]⟩]⟩, .error .badRequest, []⟩ ∧
    deleteIdentityFromChannel ⟨[⟨1, "a", []⟩], [⟨10, ["a"]⟩]⟩ 1 10 false true false false =
      ⟨⟨[⟨1, "a", []⟩], [⟨10, ["a"]⟩]⟩, .error .internal, [.identityGet 10]⟩ ∧
    deleteIdentityFromChannel ⟨[⟨1, "a", []⟩], [⟨10, ["a"]⟩]⟩ 1 99 false false false false =
      ⟨⟨[⟨1, "a", []⟩], [⟨10, ["a"]⟩]⟩, .error .badRequest, [.identityGet 99]⟩ ∧
    deleteIdentityFromChannel ⟨[⟨1, "a", []⟩], [⟨10, ["a"]⟩]⟩ 1 10 false false false false =
      ⟨⟨[⟨1, "a", []⟩], [⟨10, ["a"]⟩]⟩, .error .conflict, [.identityGet 10]⟩ := by
  have h := deleteIdentityFromChannel_stage_classes ⟨[⟨1, "a", []⟩], [⟨10, ["a"]⟩]⟩ 1 10
  have h7 := deleteIdentityFromChannel_stage_classes ⟨[⟨1, "a", []⟩], [⟨10, ["a"]⟩]⟩ 7 10
  have h99 := deleteIdentityFromChannel_stage_classes ⟨[⟨1, "a", []⟩], [⟨10, ["a"]⟩]⟩ 1 99
  refine ⟨h.1 false false false, h7.2.1 (by decide) false false false,
    h.2.2.1 ⟨1, "a", []⟩ (by decide) false false,
    h99.2.2.2.1 ⟨1, "a", []⟩ (by decide) (by decide) false false, ?_⟩
  exact (h.2.2.2.2 ⟨1, "a", []⟩ ⟨10, ["a"]⟩ (by decide) (by decide) false false).2
    (Or.inr (by decide))

/-! ### Claim C4: symmetric detach -/

/-- Claim C4: from a symmetric state (the Channel's `identityRef` holds the
Identity's id and the Identity's `channels` holds the Channel's name),
`deleteIdentityFromChannel` issues both pulls together, succeeds exactly when
both pulls succeed (with no rollback of the one that succeeded when the other
fails), and after a successful detach a second detach on the same pair fails
with `ConflictError`. -/
theorem deleteIdentityFromChannel_symmetric (st : St) (cid iid : Nat)
    (c : Channel) (i : Identity)
    (hc : findChannelById st cid = some c) (hi : findIdentityById st iid = some i)
    (h1 : c.name ∈ i.channels) (h2 : i.id ∈ c.identityRef) (f3 f4 : Bool) :
    (deleteIdentityFromChannel st cid iid false false f3 f4).calls =
      [.identityGet iid, .channelUpdate (some [cid]) "identityRef" iid,
       .identityPull [iid] c.name] ∧
    (resOk (deleteIdentityFromChannel st cid iid false false f3 f4).result = true ↔
      (f3 = false ∧ f4 = false)) ∧
    ((deleteIdentityFromChannel st cid iid false false f3 f4).state.channels =
      if f3 then st.channels
      else channelPullEffect (some [cid]) "identityRef" iid st.channels) ∧
    ((deleteIdentityFromChannel st cid iid false false f3 f4).state.identities =
      if f4 then st.identities
      else identitiesRemoveFromChannels [iid] c.name st.identities) ∧
    (f3 = false → f4 = false →
      (deleteIdentityFromChannel
        (deleteIdentityFromChannel st cid iid false false f3 f4).state
        cid iid false false false false).result = .error .conflict) := by
  have hA' : i.channels.contains c.name = true := (contains_iff _ _).mpr h1
  have hB' : c.identityRef.contains i.id = true := (contains_iff _ _).mpr h2
  have hcid : c.id = cid := find?_id_eq st cid c hc
  have hiid : i.id = iid := findIdentity_id_eq st iid i hi
  refine ⟨?_, ?_, ?_, ?_, ?_⟩
  · cases f3 <;> cases f4 <;>
      (simp only [deleteIdentityFromChannel, hc, hi, hA', hB']; simp)
  · cases f3 <;> cases f4 <;>
      (simp only [deleteIdentityFromChannel, hc, hi, hA', hB']; simp [resOk])
  · cases f3 <;> cases f4 <;>
      (simp only [deleteIdentityFromChannel, hc, hi, hA', hB']; simp)
  · cases f3 <;> cases f4 <;>
      (simp only [deleteIdentityFromChannel, hc, hi, hA', hB']; simp)
  · intro hf3 hf4
    subst hf3
    subst hf4
    have hstate : (deleteIdentityFromChannel st cid iid false false false false).state =
        ⟨channelPullEffect (some [cid]) "identityRef" iid st.channels,
         identitiesRemoveFromChannels [iid] c.name st.identities⟩ := by
      simp only [deleteIdentityFromChannel, hc, hi, hA', hB']
      simp
    rw [hstate]
    have hfc : findChannelById
        ⟨channelPullEffect (some [cid]) "identityRef" iid st.channels,
         identitiesRemoveFromChannels [iid] c.name st.identities⟩ cid =
        some (pullChannelElem (some [cid]) "identityRef" iid c) := by
      show (channelPullEffect (some [cid]) "identityRef" iid st.channels).find?
        (fun d => d.id == cid) = _
      rw [find?_channelPullEffect]
      show Option.map _ (findChannelById st cid) = _
      rw [hc]
      rfl
    have hfi : findIdentityById
        ⟨channelPullEffect (some [cid]) "identityRef" iid st.channels,
         identitiesRemoveFromChannels [iid] c.name st.identities⟩ iid =
        some (pruneIdentityElem [iid] c.name i) := by
      show (identitiesRemoveFromChannels [iid] c.name st.identities).find?
        (fun d => d.id == iid) = _
      rw [find?_identitiesRemove]
      show Option.map _ (findIdentityById st iid) = _
      rw [hi]
      rfl
    have hpulledC : pullChannelElem (some [cid]) "identityRef" iid c =
        { c with identityRef := c.identityRef.filter (fun x => !(x == iid)) } := by
      simp [pullChannelElem, hcid]
    have hprunedI : pruneIdentityElem [iid] c.name i =
        { i with channels := i.channels.filter (fun s => !(s == c.name)) } := by
      simp [pruneIdentityElem, hiid]
    rw [hpulledC] at hfc
    rw [hprunedI] at hfi
    have hnc : (i.channels.filter (fun s => !(s == c.name))).contains c.name = false := by
      cases hh : (i.channels.filter (fun s => !(s == c.name))).contains c.name
      · rfl
      · exact absurd ((contains_iff _ _).mp hh) (mem_filter_ne_self _ _)
    simp only [deleteIdentityFromChannel, hfc, hfi]
    simp [hnc]

/-- Claim C4 witness: detaching Identity 10 from Channel 1 in a symmetric
state issues both pulls and succeeds; a failed identity-side pull leaves the
already-applied channel-side pull in place (no rollback); and a second detach
after the successful one fails with `ConflictError`. -/
theorem deleteIdentityFromChannel_symmetric_witness :
    (deleteIdentityFromChannel ⟨[⟨1, "a", [10, 11]⟩], [⟨10, ["a", "b"]⟩]⟩ 1 10
        false false false false).calls =
      [.identityGet 10, .channelUpdate (some [1]) "identityRef" 10,
       .identityPull [10] "a"] ∧
    (resOk (deleteIdentityFromChannel ⟨[⟨1, "a", [10, 11]⟩], [⟨10, ["a", "b"]⟩]⟩ 1 10
        false false false false).result = true ↔ (false = false ∧ false = false)) ∧
    (deleteIdentityFromChannel ⟨[⟨1, "a", [10, 11]⟩], [⟨10, ["a", "b"]⟩]⟩ 1 10
        false false false false).state.channels = [⟨1, "a", [11]⟩] ∧
    (deleteIdentityFromChannel ⟨[⟨1, "a", [10, 11]⟩], [⟨10, ["a", "b"]⟩]⟩ 1 10
        false false false false).state.identities = [⟨10, ["b"]⟩] ∧
    (deleteIdentityFromChannel
      (deleteIdentityFromChannel ⟨[⟨1, "a", [10, 11]⟩], [⟨10, ["a", "b"]⟩]⟩ 1 10
        false false false false).state 1 10 false false false false).result =
      .error .conflict ∧
    (deleteIdentityFromChannel ⟨[⟨1, "a", [10, 11]⟩], [⟨10, ["a", "b"]⟩]⟩ 1 10
        false false false true).state.channels = [⟨1, "a", [11]⟩] ∧
    (deleteIdentityFromChannel ⟨[⟨1, "a", [10, 11]⟩], [⟨10, ["a", "b"]⟩]⟩ 1 10
        false false false true).state.identities = [⟨10, ["a", "b"]⟩] ∧
    resOk (deleteIdentityFromChannel ⟨[⟨1, "a", [10, 11]⟩], [⟨10, ["a", "b"]⟩]⟩ 1 10
        false false false true).result = false := by
  have h := deleteIdentityFromChannel_symmetric
    ⟨[⟨1, "a", [10, 11]⟩], [⟨10, ["a", "b"]⟩]⟩ 1 10 ⟨1, "a", [10, 11]⟩
    ⟨10, ["a", "b"]⟩ (by decide) (by decide) (by decide) (by decide) false false
  have h' := deleteIdentityFromChannel_symmetric
    ⟨[⟨1, "a", [10, 11]⟩], [⟨10, ["a", "b"]⟩]⟩ 1 10 ⟨1, "a", [10, 11]⟩
    ⟨10, ["a", "b"]⟩ (by decide) (by decide) (by decide) (by decide) false true
  refine ⟨h.1, h.2.1, ?_, ?_, h.2.2.2.2 rfl rfl, ?_, ?_, ?_⟩
  · rw [h.2.2.1]; decide
  · rw [h.2.2.2.1]; decide
  · rw [h'.2.2.1]; decide
  · rw [h'.2.2.2.1]; decide
  · have := h'.2.1
    cases hh : resOk (deleteIdentityFromChannel
      ⟨[⟨1, "a", [10, 11]⟩], [⟨10, ["a", "b"]⟩]⟩ 1 10 false false false true).result
    · rfl
    · exact absurd (this.mp hh).2 (by decide)

/-! ### Claim C5: rename propagation is a targeted element replacement -/

/-- Claim C5: a successful `updateChannel` renaming a Channel from `a` to `z`
rewrites the Identity collection by the positional update: in each Identity
whose `channels` list contains `a`, exactly the first element equal to `a` is
replaced by `z`, every other element keeps its value and position, and
Identities not containing `a` are untouched. -/
theorem updateChannel_rename_propagation (st : St) (cid : Nat) (c : Channel)
    (a z : String) (hc : findChannelById st cid = some c) (hname : c.name = a) :
    resOk (updateChannel st cid ⟨some z, none⟩ false false false).result = true ∧
    (updateChannel st cid ⟨some z, none⟩ false false false).state.identities =
      st.identities.map (renameIdentityElem a z) ∧
    (∀ i, a ∉ i.channels → renameIdentityElem a z i = i) ∧
    (∀ i, a ∈ i.channels →
      ∃ k, i.channels[k]? = some a ∧ (∀ j, j < k → i.channels[j]? ≠ some a) ∧
        (renameIdentityElem a z i).channels = i.channels.set k z ∧
        (renameIdentityElem a z i).channels.length = i.channels.length ∧
        (renameIdentityElem a z i).channels[k]? = some z ∧
        (∀ j, j ≠ k →
          (renameIdentityElem a z i).channels[j]? = i.channels[j]?)) := by
  refine ⟨?_, ?_, ?_, ?_⟩
  · simp [updateChannel, hc, resOk]
  · simp only [updateChannel, hc]
    simp [identitiesRename, preProcessChannel, hname]
  · intro i hmem
    have hcont : i.channels.contains a = false := by
      cases hh : i.channels.contains a
      · rfl
      · exact absurd ((contains_iff _ _).mp hh) hmem
    simp [renameIdentityElem, hcont, hmem]
  · intro i hmem
    have hcont : i.channels.contains a = true := (contains_iff _ _).mpr hmem
    obtain ⟨k, h1, h2, h3⟩ := replaceFirst_spec a z i.channels hmem
    have hk : k < i.channels.length := by
      by_contra hk
      rw [List.getElem?_eq_none (by omega)] at h1
      cases h1
    have hch : (renameIdentityElem a z i).channels = i.channels.set k z := by
      simp [renameIdentityElem, hcont, h3, hmem]
    refine ⟨k, h1, h2, hch, ?_, ?_, ?_⟩
    · rw [hch, List.length_set]
    · rw [hch]
      exact List.getElem?_set_self hk
    · intro j hj
      rw [hch]
      exact List.getElem?_set_ne (fun hh => hj hh.symm)

/-- Claim C5 witness: renaming Channel 1 from `"a"` to `"z"` turns
`I.channels = ["a", "b"]` into `["z", "b"]` while an Identity without `"a"`
is untouched. -/
theorem updateChannel_rename_propagation_witness :
    resOk (updateChannel ⟨[⟨1, "a", [10]⟩], [⟨10, ["a", "b"]⟩, ⟨11, ["c"]⟩]⟩ 1
      ⟨some "z", none⟩ false false false).result = true ∧
    (updateChannel ⟨[⟨1, "a", [10]⟩], [⟨10, ["a", "b"]⟩, ⟨11, ["c"]⟩]⟩ 1
      ⟨some "z", none⟩ false false false).state.identities =
      [⟨10, ["z", "b"]⟩, ⟨11, ["c"]⟩] := by
  have h := updateChannel_rename_propagation
    ⟨[⟨1, "a", [10]⟩], [⟨10, ["a", "b"]⟩, ⟨11, ["c"]⟩]⟩ 1 ⟨1, "a", [10]⟩ "a" "z"
    (by decide) rfl
  refine ⟨h.1, ?_⟩
  rw [h.2.1]
  decide

/-! ### Claim C1: the bidirectional invariant over operation sequences -/

/-- Claim C1 counterexample: starting from a state satisfying the
bidirectional invariant (one Identity with a dangling channel name `"a"`, no
Channels), the successful sequence `createChannel {name:"a"}` then
`updateChannel(1, {name:"z"})` leaves the pair of Channel 1 and Identity 10 —
a pair both of whose sides were written by the update, hence touched by it --
violating the invariant: `"z" ∈ identity.channels` but
`identity.id ∉ channel.identityRef`. -/
theorem touched_pair_invariant_fails_after_successful_ops :
    stInv ⟨[], [⟨10, ["a"]⟩]⟩ ∧
    allOk ⟨[], [⟨10, ["a"]⟩]⟩
      [.create ⟨some "a", none⟩, .update 1 ⟨some "z", none⟩] = true ∧
    runOps ⟨[], [⟨10, ["a"]⟩]⟩ [.create ⟨some "a", none⟩] =
      ⟨[⟨1, "a", []⟩], [⟨10, ["a"]⟩]⟩ ∧
    runOps ⟨[], [⟨10, ["a"]⟩]⟩
      [.create ⟨some "a", none⟩, .update 1 ⟨some "z", none⟩] =
      ⟨[⟨1, "z", []⟩], [⟨10, ["z"]⟩]⟩ ∧
    (⟨1, "z", []⟩ : Channel) ∈
      (runOps ⟨[], [⟨10, ["a"]⟩]⟩
        [.create ⟨some "a", none⟩, .update 1 ⟨some "z", none⟩]).channels ∧
    (⟨10, ["z"]⟩ : Identity) ∈
      (runOps ⟨[], [⟨10, ["a"]⟩]⟩
        [.create ⟨some "a", none⟩, .update 1 ⟨some "z", none⟩]).identities ∧
    (1 : Nat) ∈ wrChannels ⟨[⟨1, "a", []⟩], [⟨10, ["a"]⟩]⟩
      (.update 1 ⟨some "z", none⟩) ∧
    (10 : Nat) ∈ wrIdentities ⟨[⟨1, "a", []⟩], [⟨10, ["a"]⟩]⟩
      (.update 1 ⟨some "z", none⟩) ∧
    touchedPair ⟨[⟨1, "a", []⟩], [⟨10, ["a"]⟩]⟩ (.update 1 ⟨some "z", none⟩)
      ⟨1, "z", []⟩ ⟨10, ["z"]⟩ ∧
    ¬ pairInv ⟨1, "z", []⟩ ⟨10, ["z"]⟩ := by
  decide

/-- Claim C1 amended: for a single successful operation run from a state
satisfying the bidirectional invariant for all pairs (with unique record
ids), every Channel/Identity pair both of whose sides the operation wrote
satisfies the invariant afterwards, provided an update's patch does not
itself rewrite `identityRef`; pairs with only one side written — and later
operations of a sequence, once a one-sided write has introduced an
inconsistency — are not protected, as the counterexample shows. -/
theorem applyOp_bothWritten_pairInv (st : St) (op : Op)
    (hinv : stInv st) (hnd : idsNodup st)
    (hok : resOk (applyOp st op).result = true)
    (hpatch : ∀ id ch, op = Op.update id ch → ch.identityRef = none) :
    ∀ c ∈ (applyOp st op).state.channels, ∀ i ∈ (applyOp st op).state.identities,
      c.id ∈ wrChannels st op → i.id ∈ wrIdentities st op → pairInv c i := by
  cases op with
  | create d =>
    intro c _ i _ _ hiw
    simp [wrIdentities] at hiw
  | delete id =>
    intro c _ i _ hcw _
    simp [wrChannels] at hcw
  | update id ch =>
    have href : ch.identityRef = none := hpatch id ch rfl
    cases hfc : findChannelById st id with
    | none =>
      exfalso
      simp [applyOp, updateChannel, hfc, resOk] at hok
    | some c0 =>
      have hstate : (applyOp st (Op.update id ch)).state =
          ⟨st.channels.map (fun d => if d.id == id then preProcessChannel c0 ch else d),
           identitiesRename c0.name (preProcessChannel c0 ch).name st.identities⟩ := by
        simp only [applyOp, updateChannel, hfc]
        simp
      intro c hcmem i himem hcw hiw
      rw [hstate] at hcmem himem
      have hcid : c.id = id := by
        simp only [wrChannels, hfc] at hcw
        simpa using hcw
      obtain ⟨d, hd, hdc⟩ := List.mem_map.mp hcmem
      have hceq : c = preProcessChannel c0 ch := by
        by_cases hdid : (d.id == id) = true
        · rw [if_pos hdid] at hdc
          exact hdc.symm
        · exfalso
          rw [if_neg hdid] at hdc
          rw [← hdc] at hcid
          exact hdid (by simp [hcid])
      obtain ⟨e, he, hei⟩ := List.mem_map.mp himem
      have heid : e.id = i.id := by
        rw [← hei, renameIdentityElem_id]
      simp only [wrIdentities, hfc] at hiw
      obtain ⟨e2, he2f, he2id⟩ := List.mem_map.mp hiw
      obtain ⟨he2, hcont2⟩ := List.mem_filter.mp he2f
      have heeq : e = e2 :=
        List.inj_on_of_nodup_map hnd.2 he he2 (by rw [heid, he2id])
      have hconte : e.channels.contains c0.name = true := by
        rw [heeq]
        exact hcont2
      have hmemE : c0.name ∈ e.channels := (contains_iff _ _).mp hconte
      have hieq : i = { e with
          channels := replaceFirst c0.name (preProcessChannel c0 ch).name e.channels } := by
        rw [← hei]
        simp [renameIdentityElem, hconte, hmemE]
      have hcref : (preProcessChannel c0 ch).identityRef = c0.identityRef := by
        simp [preProcessChannel, href]
      have hpre : e.id ∈ c0.identityRef ↔ c0.name ∈ e.channels :=
        hinv c0 (find?_id_mem st id c0 hfc) e he
      have hrefE : e.id ∈ c0.identityRef := hpre.mpr hmemE
      rw [hceq, hieq]
      unfold pairInv
      rw [hcref]
      constructor
      · intro _
        exact mem_replaceFirst_new c0.name (preProcessChannel c0 ch).name
          e.channels hmemE
      · intro _
        exact hrefE
  | detach cid iid =>
    cases hfc : findChannelById st cid with
    | none =>
      exfalso
      simp [applyOp, deleteIdentityFromChannel, hfc, resOk] at hok
    | some c0 =>
      cases hfi : findIdentityById st iid with
      | none =>
        exfalso
        simp [applyOp, deleteIdentityFromChannel, hfc, hfi, resOk] at hok
      | some i0 =>
        cases hguard : (!(i0.channels.contains c0.name)
            || !(c0.identityRef.contains i0.id)) with
        | true =>
          exfalso
          simp only [applyOp, deleteIdentityFromChannel, hfc, hfi, hguard] at hok
          simp [resOk] at hok
        | false =>
          have hstate : (applyOp st (Op.detach cid iid)).state =
              ⟨channelPullEffect (some [cid]) "identityRef" iid st.channels,
               identitiesRemoveFromChannels [iid] c0.name st.identities⟩ := by
            simp only [applyOp, deleteIdentityFromChannel, hfc, hfi, hguard]
            simp
          intro c hcmem i himem hcw hiw
          rw [hstate] at hcmem himem
          have hcid : c.id = cid := by simpa [wrChannels] using hcw
          have hiid : i.id = iid := by simpa [wrIdentities] using hiw
          obtain ⟨d, hd, hdc⟩ := List.mem_map.mp hcmem
          have hdid : d.id = cid := by
            rw [← hcid, ← hdc, pullChannelElem_id]
          have hdeq : d = c0 :=
            List.inj_on_of_nodup_map hnd.1 hd (find?_id_mem st cid c0 hfc)
              (by rw [hdid, find?_id_eq st cid c0 hfc])
          have hceq : c = { c0 with
              identityRef := c0.identityRef.filter (fun x => !(x == iid)) } := by
            rw [← hdc, hdeq]
            have : c0.id = cid := find?_id_eq st cid c0 hfc
            simp [pullChannelElem, this]
          obtain ⟨e, he, hei⟩ := List.mem_map.mp himem
          have heid : e.id = iid := by
            rw [← hiid, ← hei, pruneIdentityElem_id]
          have heeq : e = i0 :=
            List.inj_on_of_nodup_map hnd.2 he (findIdentity_id_mem st iid i0 hfi)
              (by rw [heid, findIdentity_id_eq st iid i0 hfi])
          have hieq : i = { i0 with
              channels := i0.channels.filter (fun s => !(s == c0.name)) } := by
            rw [← hei, heeq]
            have : i0.id = iid := findIdentity_id_eq st iid i0 hfi
            simp [pruneIdentityElem, this]
          rw [hceq, hieq]
          unfold pairInv
          constructor
          · intro hmem
            exfalso
            have hmem' : i0.id ∈ c0.identityRef.filter (fun x => !(x == iid)) := hmem
            rw [findIdentity_id_eq st iid i0 hfi] at hmem'
            exact mem_filter_ne_self iid c0.identityRef hmem'
          · intro hmem
            exfalso
            exact mem_filter_ne_self c0.name i0.channels hmem

/-- Claim C1 amended witness: a successful detach of Identity 10 from
Channel 1, both sides written, keeps the pair invariant-consistent. -/
theorem applyOp_bothWritten_pairInv_witness :
    stInv ⟨[⟨1, "a", [10]⟩], [⟨10, ["a"]⟩]⟩ ∧
    idsNodup ⟨[⟨1, "a", [10]⟩], [⟨10, ["a"]⟩]⟩ ∧
    resOk (applyOp ⟨[⟨1, "a", [10]⟩], [⟨10, ["a"]⟩]⟩ (Op.detach 1 10)).result = true ∧
    pairInv ⟨1, "a", []⟩ ⟨10, []⟩ := by
  refine ⟨by decide, by decide, by decide, ?_⟩
  exact applyOp_bothWritten_pairInv ⟨[⟨1, "a", [10]⟩], [⟨10, ["a"]⟩]⟩
    (Op.detach 1 10) (by decide) (by decide) (by decide)
    (fun id ch h => by cases h)
    ⟨1, "a", []⟩ (by decide) ⟨10, []⟩ (by decide) (by decide) (by decide)
